import Mathlib

/-!
Shallow embedding of the transport-backend logistics API core
(`src/controller/shipmentController.js`, `src/controller/driverController.js`,
and the Bill model pre-save hook), together with theorems settling the
frozen claims about its specification.

Modelling conventions:
* JSON scalar values arriving in a request body are modelled by `JVal`
  (numbers as `Int`, strings as `String`); an absent field is `none`.
* The document store is modelled as explicit lists of records; Mongoose
  `findOne`/`updateOne`/`findOneAndUpdate` act on the first matching record.
* A Mongoose query filter whose value is `undefined` has that key dropped,
  so `findOne({ k: undefined })` matches the first document of the collection.
* JavaScript truthiness of an id value (`if (truckId)`) is `jtruthy`:
  `undefined`, the number `0` and the empty string are falsy.
* `express-validator` chains are modelled per field: a failing field chain
  contributes its `withMessage` text once to the aggregated error list.
  `isISO8601` is modelled by a simplified date-shape check (the real library
  accepts more shapes; no claim depends on the boundary).
* Thrown exceptions caught by a handler's `catch` are the `serverErr`
  result (HTTP 500); validation and business rejections are 400; `created`
  is 201; `ok` is 200; `notFound` is 404.
-/

namespace Transport

/-- A JSON scalar value as delivered in a request body. -/
inductive JVal where
  | vnum (n : Int)
  | vstr (s : String)
deriving Repr, DecidableEq

/-- Digit-string value, used when Mongoose casts a numeric string to `Number`. -/
def digitsVal (l : List Char) : Int :=
  l.foldl (fun a c => a * 10 + ((c.toNat : Int) - 48)) 0

/-- Numeric-string to integer (Mongoose cast of a string id to the schema's
`Number` type). Only reached on values accepted by `isNumeric`. -/
def strToInt (s : String) : Int :=
  match s.toList with
  | '-' :: rest => - digitsVal rest
  | l => digitsVal l

/-- Value of a `JVal` when cast to a number by the schema. -/
def jvalToInt : JVal → Int
  | .vnum n => n
  | .vstr s => strToInt s

/-- Cast of a possibly absent body value to a number, defaulting 0
(the default is only reached on paths guarded by truthiness). -/
def jvalToIntD : Option JVal → Int
  | none => 0
  | some v => jvalToInt v

/-- JavaScript truthiness of a possibly absent body value:
`undefined`, `0` and `""` are falsy. -/
def jtruthy : Option JVal → Bool
  | none => false
  | some (.vnum n) => n != 0
  | some (.vstr s) => s != ""

/-- `validator.js` `isNumeric`: an integer-shaped value (number, or a string
of digits with an optional leading minus). -/
def isNumericStr (s : String) : Bool :=
  match s.toList with
  | [] => false
  | '-' :: rest => rest != [] && rest.all Char.isDigit
  | l => l.all Char.isDigit

/-- `body(f).isNumeric()`: missing field fails. -/
def isNumericV : Option JVal → Bool
  | none => false
  | some (.vnum _) => true
  | some (.vstr s) => isNumericStr s

/-- `body(f).isString()`: missing field fails. -/
def isStringV : Option JVal → Bool
  | some (.vstr _) => true
  | _ => false

/-- `body(f).isString().notEmpty()`. -/
def isNonEmptyStringV : Option JVal → Bool
  | some (.vstr s) => s != ""
  | _ => false

/-- `body(f).isFloat({ gt: 0 })`. -/
def isPositiveNumV : Option JVal → Bool
  | none => false
  | some (.vnum n) => decide (0 < n)
  | some (.vstr s) => isNumericStr s && decide (0 < strToInt s)

/-- Simplified model of `body(f).isISO8601()`: a `YYYY-MM-DD` shaped string. -/
def isISO8601Str (s : String) : Bool :=
  match s.toList with
  | [y1, y2, y3, y4, c1, m1, m2, c2, d1, d2] =>
      y1.isDigit && y2.isDigit && y3.isDigit && y4.isDigit &&
      c1 == '-' && c2 == '-' && m1.isDigit && m2.isDigit && d1.isDigit && d2.isDigit
  | _ => false

/-- `body(f).isISO8601()`: missing field fails. -/
def isISO8601V : Option JVal → Bool
  | some (.vstr s) => isISO8601Str s
  | _ => false

/-- `body(f).optional().isNumeric()`: a missing field is skipped. -/
def isOptionalNumericV : Option JVal → Bool
  | none => true
  | some v => isNumericV (some v)

/-- Truck record (`models/Truck`): numeric id and availability status. -/
structure Truck where
  truckId : Int
  availabilityStatus : String
deriving Repr, DecidableEq

/-- Driver record (`models/Driver`): numeric id, identification fields,
availability status, optional assigned-truck reference by numeric truck id.
Contact fields not consulted by any claim are elided. -/
structure Driver where
  driverId : Int
  name : String
  licenseNumber : String
  availabilityStatus : String
  assignedTruck : Option Int
deriving Repr, DecidableEq

/-- Client record (`models/Client`): numeric id and name. -/
structure Client where
  clientId : Int
  clientName : String
deriving Repr, DecidableEq

/-- Shipment record. The handler stores the raw request-body values
(`new Shipment({ ... })` with the destructured fields); `shipmentId` is the
`0` placeholder written by the source (the model's pre-save hook that would
overwrite it is not under src/ and no claim depends on the assigned id). -/
structure Shipment where
  shipmentId : Int
  shipmentName : Option JVal
  clientId : Option JVal
  pickupLocation : Option JVal
  deliveryLocation : Option JVal
  cargoType : Option JVal
  cargoWeight : Option JVal
  specialInstructions : Option JVal
  departureDate : Option JVal
  arrivalDate : Option JVal
  status : JVal
  truckId : Option JVal
  driverId : Option JVal
deriving Repr, DecidableEq

/-- The entity store: persistent collections of records.
Modelled from the spec: the store files themselves (`models/*.js`) are not
under src/; per §6 the workflow depends only on find-by-filter, insert and
update-by-filter, modelled on these lists. -/
structure Store where
  trucks : List Truck
  drivers : List Driver
  clients : List Client
  shipments : List Shipment
deriving Repr, DecidableEq

/-- The body of a createShipment request: each field either absent or a
JSON scalar. -/
structure CreateShipmentReq where
  clientId : Option JVal
  shipmentName : Option JVal
  pickupLocation : Option JVal
  deliveryLocation : Option JVal
  cargoType : Option JVal
  cargoWeight : Option JVal
  specialInstructions : Option JVal
  departureDate : Option JVal
  arrivalDate : Option JVal
  status : Option JVal
  truckId : Option JVal
  driverId : Option JVal
deriving Repr, DecidableEq

/-- The field-validation pass of `createShipment` (lines 12–63): every field
chain runs, failures are aggregated into one error list. `specialInstructions`
and `status` have no validator chain in the source. -/
def validateCreateShipment (r : CreateShipmentReq) : List String :=
  (if isNumericV r.clientId then [] else ["Client ID must be an integer."]) ++
  (if isStringV r.shipmentName then [] else ["Shipment Name is required."]) ++
  (if isNonEmptyStringV r.pickupLocation then [] else ["Pickup location is required."]) ++
  (if isNonEmptyStringV r.deliveryLocation then [] else ["Delivery location is required."]) ++
  (if isNonEmptyStringV r.cargoType then [] else ["Cargo type is required."]) ++
  (if isPositiveNumV r.cargoWeight then [] else ["Cargo weight must be a positive number."]) ++
  (if isISO8601V r.departureDate then [] else ["Departure date must be a valid date."]) ++
  (if isISO8601V r.arrivalDate then [] else ["Arrival date must be a valid date."]) ++
  (if isOptionalNumericV r.truckId then [] else ["Truck ID must be a valid MongoDB ObjectId."]) ++
  (if isOptionalNumericV r.driverId then [] else ["Driver ID must be a valid MongoDB ObjectId."])

/-- `Truck.findOne({ truckId: v })`: an `undefined` filter value is dropped by
Mongoose, so the query matches the first document; otherwise the value is cast
to a number and the first truck with that id is returned. -/
def findTruckQ (ts : List Truck) : Option JVal → Option Truck
  | none => ts.head?
  | some v => ts.find? (fun t => t.truckId == jvalToInt v)

/-- `Driver.findOne({ driverId: v })`, same filter semantics. -/
def findDriverQ (ds : List Driver) : Option JVal → Option Driver
  | none => ds.head?
  | some v => ds.find? (fun d => d.driverId == jvalToInt v)

/-- `Client.findOne({ clientId: v })`, same filter semantics. -/
def findClientQ (cs : List Client) : Option JVal → Option Client
  | none => cs.head?
  | some v => cs.find? (fun c => c.clientId == jvalToInt v)

/-- `Truck.findOne({ truckId: ref })` where `ref` is a stored numeric
reference (`driver.assignedTruck`); an absent reference again matches the
first document. -/
def findTruckByRef (ts : List Truck) : Option Int → Option Truck
  | none => ts.head?
  | some id => ts.find? (fun t => t.truckId == id)

/-- `Truck.updateOne({ truckId }, { $set: { availabilityStatus: "Not Available" } })`:
sets the first matching truck's availability. -/
def updateTruckAvail : List Truck → Int → List Truck
  | [], _ => []
  | t :: rest, id =>
    if t.truckId == id then { t with availabilityStatus := "Not Available" } :: rest
    else t :: updateTruckAvail rest id

/-- `Driver.updateOne({ driverId }, { $set: { availabilityStatus: "Not Available",
assignedTruck: truckId } })`: sets the first matching driver's availability and
assigned truck; an absent request truckId clears the reference (the spec's
Design Notes: "this sets it to undefined"). -/
def updateDriverAssign : List Driver → Int → Option Int → List Driver
  | [], _, _ => []
  | d :: rest, id, tr =>
    if d.driverId == id then
      { d with availabilityStatus := "Not Available", assignedTruck := tr } :: rest
    else d :: updateDriverAssign rest id tr

/-- Outcome of `createShipment`; the HTTP status of each constructor is given
by `CSResult.httpStatus`. -/
inductive CSResult where
  | validationErr (errors : List String)
  | businessErr (message : String)
  | created (shipment : Shipment)
  | serverErr
deriving Repr, DecidableEq

/-- HTTP status of each `createShipment` outcome, per the source's
`res.status(...)` calls. -/
def CSResult.httpStatus : CSResult → Nat
  | .validationErr _ => 400
  | .businessErr _ => 400
  | .created _ => 201
  | .serverErr => 500

/-- Lines 82–95: `if (truckId) { ... }` — truck existence and availability. -/
def truckCheck (s : Store) (r : CreateShipmentReq) : Option CSResult :=
  if jtruthy r.truckId then
    match findTruckQ s.trucks r.truckId with
    | none => some (.businessErr "Invalid Truck ID. Truck does not exist.")
    | some truck =>
      if truck.availabilityStatus != "Available" then
        some (.businessErr "Truck is not available.")
      else none
  else none

/-- Lines 98–111: `if (driverId) { ... }` — driver existence and availability. -/
def driverCheck (s : Store) (r : CreateShipmentReq) : Option CSResult :=
  if jtruthy r.driverId then
    match findDriverQ s.drivers r.driverId with
    | none => some (.businessErr "Invalid Driver ID. Driver does not exist.")
    | some driver =>
      if driver.availabilityStatus != "Available" then
        some (.businessErr "Driver is not available.")
      else none
  else none

/-- Lines 114–122: `if (clientId) { ... }` — client existence. -/
def clientCheck (s : Store) (r : CreateShipmentReq) : Option CSResult :=
  if jtruthy r.clientId then
    match findClientQ s.clients r.clientId with
    | none => some (.businessErr "Invalid Client ID. Client does not exist.")
    | some _ => none
  else none

/-- Lines 125–139: the `new Shipment({...})` record built from the request,
with `status` defaulted to `"pending"` at destructuring. -/
def mkShipment (r : CreateShipmentReq) : Shipment :=
  { shipmentId := 0
    shipmentName := r.shipmentName
    clientId := r.clientId
    pickupLocation := r.pickupLocation
    deliveryLocation := r.deliveryLocation
    cargoType := r.cargoType
    cargoWeight := r.cargoWeight
    specialInstructions := r.specialInstructions
    departureDate := r.departureDate
    arrivalDate := r.arrivalDate
    status := r.status.getD (JVal.vstr "pending")
    truckId := r.truckId
    driverId := r.driverId }

/-- Lines 141–159: `shipment.save()`, then the two conditional
availability updates, in source order. -/
def applyCreate (s : Store) (r : CreateShipmentReq) : Store :=
  let s1 : Store := { s with shipments := s.shipments ++ [mkShipment r] }
  let s2 : Store :=
    if jtruthy r.truckId then
      { s1 with trucks := updateTruckAvail s1.trucks (jvalToIntD r.truckId) }
    else s1
  if jtruthy r.driverId then
    { s2 with drivers :=
        updateDriverAssign s2.drivers (jvalToIntD r.driverId) (r.truckId.map jvalToInt) }
  else s2

/-- `createShipment` (lines 10–171): field validation, the three business
checks in source order with immediate return, then record creation and the
cascading availability updates. Returns the response and the store after the
request. -/
def createShipment (s : Store) (r : CreateShipmentReq) : CSResult × Store :=
  let errs := validateCreateShipment r
  if errs.isEmpty then
    match truckCheck s r with
    | some e => (e, s)
    | none =>
      match driverCheck s r with
      | some e => (e, s)
      | none =>
        match clientCheck s r with
        | some e => (e, s)
        | none => (.created (mkShipment r), applyCreate s r)
  else
    (.validationErr errs, s)

/-- One entry of the `getAllShipments` response: the shipment merged with its
resolved truck, driver, and the client's name. -/
structure PopulatedShipment where
  shipment : Shipment
  truck : Option Truck
  driver : Option Driver
  clientName : String
deriving Repr, DecidableEq

/-- Outcome of `getAllShipments`: 200 with the populated list, or the 500
produced by the catch block. -/
inductive GSResult where
  | ok (shipments : List PopulatedShipment)
  | serverErr
deriving Repr, DecidableEq

/-- Lines 179–191: populate one shipment. The source dereferences
`client.clientName` without a null check, so a missing client throws
(`none` here), which `Promise.all` propagates to the catch block. -/
def populateOne (s : Store) (sh : Shipment) : Option PopulatedShipment :=
  match findClientQ s.clients sh.clientId with
  | none => none
  | some c =>
      some { shipment := sh
             truck := findTruckQ s.trucks sh.truckId
             driver := findDriverQ s.drivers sh.driverId
             clientName := c.clientName }

/-- `Promise.all` over the shipment list: any rejection rejects the whole. -/
def populateAll (s : Store) : List Shipment → Option (List PopulatedShipment)
  | [] => some []
  | sh :: rest =>
    match populateOne s sh with
    | none => none
    | some p =>
      match populateAll s rest with
      | none => none
      | some l => some (p :: l)

/-- `getAllShipments` (lines 174–202). -/
def getAllShipments (s : Store) : GSResult :=
  match populateAll s s.shipments with
  | none => GSResult.serverErr
  | some l => GSResult.ok l

/-- The entry `getAllShipments` produces for a shipment whose client lookup
succeeds (total description used in theorem statements). -/
def populateTotal (s : Store) (sh : Shipment) : PopulatedShipment :=
  { shipment := sh
    truck := findTruckQ s.trucks sh.truckId
    driver := findDriverQ s.drivers sh.driverId
    clientName := ((findClientQ s.clients sh.clientId).map Client.clientName).getD "" }

/-- Body of an `updateShipment` request after its all-optional field
validation: supplied fields overwrite, absent fields are left alone
(`findOneAndUpdate` with the raw body). -/
structure ShipmentUpdate where
  shipmentName : Option JVal
  pickupLocation : Option JVal
  deliveryLocation : Option JVal
  cargoType : Option JVal
  cargoWeight : Option JVal
  departureDate : Option JVal
  arrivalDate : Option JVal
  status : Option JVal
deriving Repr, DecidableEq

/-- An empty update body (every optional validator is skipped on it). -/
def emptyShipmentUpdate : ShipmentUpdate :=
  { shipmentName := none, pickupLocation := none, deliveryLocation := none
    cargoType := none, cargoWeight := none, departureDate := none
    arrivalDate := none, status := none }

/-- Blind merge of the request body into the stored record. -/
def mergeShipment (sh : Shipment) (u : ShipmentUpdate) : Shipment :=
  { sh with
    shipmentName := match u.shipmentName with | none => sh.shipmentName | some v => some v
    pickupLocation := match u.pickupLocation with | none => sh.pickupLocation | some v => some v
    deliveryLocation := match u.deliveryLocation with | none => sh.deliveryLocation | some v => some v
    cargoType := match u.cargoType with | none => sh.cargoType | some v => some v
    cargoWeight := match u.cargoWeight with | none => sh.cargoWeight | some v => some v
    departureDate := match u.departureDate with | none => sh.departureDate | some v => some v
    arrivalDate := match u.arrivalDate with | none => sh.arrivalDate | some v => some v
    status := match u.status with | none => sh.status | some v => v }

/-- `Shipment.findOneAndUpdate({ shipmentId: id }, body, { new: true })`:
updates the first matching record, returning the updated document (or `none`
when nothing matched) and the collection after the call. -/
def findOneAndUpdateShipment : List Shipment → Int → ShipmentUpdate →
    Option Shipment × List Shipment
  | [], _, _ => (none, [])
  | sh :: rest, id, u =>
    if sh.shipmentId == id then (some (mergeShipment sh u), mergeShipment sh u :: rest)
    else
      let p := findOneAndUpdateShipment rest id u
      (p.1, sh :: p.2)

/-- Outcome of `updateShipment`. -/
inductive ShipmentUpdateResult where
  | ok (shipment : Shipment) (truck : Option Truck) (driver : Option Driver)
  | notFound
  | serverErr
deriving Repr, DecidableEq

/-- `updateShipment` (lines 231–316), after its all-optional field validation.
When no shipment matches, the source reads `updatedShipment.truckId` (line 297)
before the `if (!updatedShipment)` null check (line 300): reading a property of
`null` throws, the catch returns 500, and the 404 branch is unreachable. -/
def updateShipment (s : Store) (id : Int) (u : ShipmentUpdate) :
    ShipmentUpdateResult × Store :=
  match findOneAndUpdateShipment s.shipments id u with
  | (none, l) => (.serverErr, { s with shipments := l })
  | (some sh, l) =>
      (.ok sh (findTruckQ s.trucks sh.truckId) (findDriverQ s.drivers sh.driverId),
       { s with shipments := l })

/-- Outcome of `getDriverById`. -/
inductive DriverGetResult where
  | ok (driver : Driver) (truck : Option Truck)
  | notFound
  | serverErr
deriving Repr, DecidableEq

/-- `getDriverById` (driverController lines 112–139). When no driver matches,
the source reads `driver.assignedTruck` (line 127) before the `if (!driver)`
null check (line 128): the read of a property of `null` throws, the catch
returns 500, and the 404 branch is unreachable. -/
def getDriverById (s : Store) (driverId : Int) : DriverGetResult :=
  match s.drivers.find? (fun d => d.driverId == driverId) with
  | none => DriverGetResult.serverErr
  | some driver =>
      DriverGetResult.ok driver (findTruckByRef s.trucks driver.assignedTruck)

/-- Body of an `updateDriverById` request after its all-optional validation. -/
structure DriverUpdate where
  name : Option String
  licenseNumber : Option String
  availabilityStatus : Option String
  assignedTruck : Option Int
deriving Repr, DecidableEq

/-- An empty driver-update body. -/
def emptyDriverUpdate : DriverUpdate :=
  { name := none, licenseNumber := none, availabilityStatus := none, assignedTruck := none }

/-- Blind merge of the request body into the stored driver. -/
def mergeDriver (d : Driver) (u : DriverUpdate) : Driver :=
  { d with
    name := u.name.getD d.name
    licenseNumber := u.licenseNumber.getD d.licenseNumber
    availabilityStatus := u.availabilityStatus.getD d.availabilityStatus
    assignedTruck := match u.assignedTruck with | none => d.assignedTruck | some t => some t }

/-- `Driver.findOneAndUpdate({ driverId }, updateData, { new: true })`. -/
def findOneAndUpdateDriver : List Driver → Int → DriverUpdate →
    Option Driver × List Driver
  | [], _, _ => (none, [])
  | d :: rest, id, u =>
    if d.driverId == id then (some (mergeDriver d u), mergeDriver d u :: rest)
    else
      let p := findOneAndUpdateDriver rest id u
      (p.1, d :: p.2)

/-- Outcome of `updateDriverById`. -/
inductive DriverUpdateResult where
  | ok (driver : Driver) (assignedTruck : Option Truck)
  | notFound
  | serverErr
deriving Repr, DecidableEq

/-- `updateDriverById` (driverController lines 142–222). When no driver
matches, the source reads `driver.assignedTruck` (line 204) before the
`if (!driver)` null check (line 207): the read throws, the catch returns 500,
and the 404 branch is unreachable. -/
def updateDriverById (s : Store) (driverId : Int) (u : DriverUpdate) :
    DriverUpdateResult × Store :=
  match findOneAndUpdateDriver s.drivers driverId u with
  | (none, ds) => (.serverErr, { s with drivers := ds })
  | (some d, ds) =>
      (.ok d (findTruckByRef s.trucks d.assignedTruck), { s with drivers := ds })

/-- Value of a counter document: `sequence`, or 0 when the key is absent. -/
def counterVal (cs : List (String × Int)) (key : String) : Int :=
  match cs.find? (fun p => p.1 == key) with
  | none => 0
  | some p => p.2

/-- Update of the first counter document with the given key. -/
def updCounter : List (String × Int) → String → Int → List (String × Int)
  | [], _, _ => []
  | q :: rest, key, v =>
    if q.1 == key then (q.1, v) :: rest else q :: updCounter rest key v

/-- The Sequence Generator call in the Bill pre-save hook:
`Counter.findOneAndUpdate({ _id: key }, { $inc: { sequence: 1 } },
{ new: true, upsert: true })`. Modelled from the spec (§4.1) for the Counter
model file, which is not under src/: an absent key is upserted with the
increment applied to 0, so the first value is 1; otherwise the stored
sequence is incremented and the new value returned. -/
def nextSequence (cs : List (String × Int)) (key : String) :
    Int × List (String × Int) :=
  match cs.find? (fun p => p.1 == key) with
  | none => (1, cs ++ [(key, 1)])
  | some p => (p.2 + 1, updCounter cs key (p.2 + 1))

/-- Bill record; fields other than the auto-assigned id are elided. -/
structure Bill where
  billId : Int
deriving Repr, DecidableEq

/-- The Bill pre-save hook (src/unnamed/part_001 lines 77–91): on first save
of a new record, `billId` is assigned from the counter sequence. -/
def billPreSave (isNew : Bool) (b : Bill) (cs : List (String × Int)) :
    Bill × List (String × Int) :=
  if isNew then
    let p := nextSequence cs "billId"
    ({ b with billId := p.1 }, p.2)
  else (b, cs)

/-- The first `n` values produced by successive Sequence Generator calls for
one key, starting from counter state `cs`. -/
def seqValues (cs : List (String × Int)) (key : String) : Nat → List Int
  | 0 => []
  | n + 1 =>
    let p := nextSequence cs key
    p.1 :: seqValues p.2 key n

/-! ### Helper lemmas -/

theorem find?_cons_true {α : Type} (p : α → Bool) (a : α) (l : List α)
    (h : p a = true) : (a :: l).find? p = some a := by
  simp [List.find?, h]

theorem find?_cons_false {α : Type} (p : α → Bool) (a : α) (l : List α)
    (h : p a = false) : (a :: l).find? p = l.find? p := by
  simp [List.find?, h]

theorem find_updateTruckAvail (ts : List Truck) (id : Int) (t : Truck)
    (h : ts.find? (fun x => x.truckId == id) = some t) :
    (updateTruckAvail ts id).find? (fun x => x.truckId == id) =
      some { t with availabilityStatus := "Not Available" } := by
  induction ts with
  | nil => simp [List.find?] at h
  | cons a rest ih =>
    cases ha : a.truckId == id with
    | true =>
      rw [find?_cons_true (fun x => x.truckId == id) a rest ha] at h
      injection h with h2
      subst h2
      simp only [updateTruckAvail, ha, if_true]
      exact find?_cons_true (fun x => x.truckId == id)
        { a with availabilityStatus := "Not Available" } rest (by simpa using ha)
    | false =>
      rw [find?_cons_false (fun x => x.truckId == id) a rest ha] at h
      simp only [updateTruckAvail, ha, Bool.false_eq_true, if_false]
      rw [find?_cons_false (fun x => x.truckId == id) a _ ha]
      exact ih h

theorem find_updateDriverAssign (ds : List Driver) (id : Int) (tr : Option Int)
    (d : Driver) (h : ds.find? (fun x => x.driverId == id) = some d) :
    (updateDriverAssign ds id tr).find? (fun x => x.driverId == id) =
      some { d with availabilityStatus := "Not Available", assignedTruck := tr } := by
  induction ds with
  | nil => simp [List.find?] at h
  | cons a rest ih =>
    cases ha : a.driverId == id with
    | true =>
      rw [find?_cons_true (fun x => x.driverId == id) a rest ha] at h
      injection h with h2
      subst h2
      simp only [updateDriverAssign, ha, if_true]
      exact find?_cons_true (fun x => x.driverId == id)
        { a with availabilityStatus := "Not Available", assignedTruck := tr } rest
        (by simpa using ha)
    | false =>
      rw [find?_cons_false (fun x => x.driverId == id) a rest ha] at h
      simp only [updateDriverAssign, ha, Bool.false_eq_true, if_false]
      rw [find?_cons_false (fun x => x.driverId == id) a _ ha]
      exact ih h

theorem mem_updateDriverAssign (ds : List Driver) (id : Int) (tr : Option Int)
    (d : Driver) (h : d ∈ updateDriverAssign ds id tr) :
    d.assignedTruck = tr ∨ d ∈ ds := by
  induction ds with
  | nil => simp [updateDriverAssign] at h
  | cons a rest ih =>
    by_cases ha : (a.driverId == id) = true
    · simp only [updateDriverAssign, ha, if_true] at h
      rcases List.mem_cons.mp h with h2 | h2
      · subst h2; left; rfl
      · right; exact List.mem_cons_of_mem _ h2
    · simp only [updateDriverAssign, ha, if_false, Bool.false_eq_true] at h
      rcases List.mem_cons.mp h with h2 | h2
      · subst h2; right; exact List.mem_cons_self _ _
      · rcases ih h2 with h3 | h3
        · left; exact h3
        · right; exact List.mem_cons_of_mem _ h3

theorem applyCreate_trucks (s : Store) (r : CreateShipmentReq) :
    (applyCreate s r).trucks =
      if jtruthy r.truckId then updateTruckAvail s.trucks (jvalToIntD r.truckId)
      else s.trucks := by
  unfold applyCreate
  by_cases hd : jtruthy r.driverId = true <;> by_cases ht : jtruthy r.truckId = true <;>
    simp [hd, ht]

theorem applyCreate_drivers (s : Store) (r : CreateShipmentReq) :
    (applyCreate s r).drivers =
      if jtruthy r.driverId then
        updateDriverAssign s.drivers (jvalToIntD r.driverId) (r.truckId.map jvalToInt)
      else s.drivers := by
  unfold applyCreate
  by_cases hd : jtruthy r.driverId = true <;> by_cases ht : jtruthy r.truckId = true <;>
    simp [hd, ht]

theorem applyCreate_shipments (s : Store) (r : CreateShipmentReq) :
    (applyCreate s r).shipments = s.shipments ++ [mkShipment r] := by
  unfold applyCreate
  by_cases hd : jtruthy r.driverId = true <;> by_cases ht : jtruthy r.truckId = true <;>
    simp [hd, ht]

theorem truckCheck_some (s : Store) (r : CreateShipmentReq) (e : CSResult)
    (h : truckCheck s r = some e) : ∃ m, e = CSResult.businessErr m := by
  unfold truckCheck at h
  split at h
  · split at h
    · exact ⟨_, (Option.some.inj h).symm⟩
    · split at h
      · exact ⟨_, (Option.some.inj h).symm⟩
      · cases h
  · cases h

theorem driverCheck_some (s : Store) (r : CreateShipmentReq) (e : CSResult)
    (h : driverCheck s r = some e) : ∃ m, e = CSResult.businessErr m := by
  unfold driverCheck at h
  split at h
  · split at h
    · exact ⟨_, (Option.some.inj h).symm⟩
    · split at h
      · exact ⟨_, (Option.some.inj h).symm⟩
      · cases h
  · cases h

theorem clientCheck_some (s : Store) (r : CreateShipmentReq) (e : CSResult)
    (h : clientCheck s r = some e) : ∃ m, e = CSResult.businessErr m := by
  unfold clientCheck at h
  split at h
  · split at h
    · exact ⟨_, (Option.some.inj h).symm⟩
    · cases h
  · cases h

theorem createShipment_store_cases (s : Store) (r : CreateShipmentReq) :
    (createShipment s r).2 = s ∨ ∃ sh, (createShipment s r).1 = CSResult.created sh := by
  cases hE : (validateCreateShipment r).isEmpty with
  | false => exact Or.inl (by simp [createShipment, hE])
  | true =>
    cases hT : truckCheck s r with
    | some e => exact Or.inl (by simp [createShipment, hE, hT])
    | none =>
      cases hD : driverCheck s r with
      | some e => exact Or.inl (by simp [createShipment, hE, hT, hD])
      | none =>
        cases hC : clientCheck s r with
        | some e => exact Or.inl (by simp [createShipment, hE, hT, hD, hC])
        | none => exact Or.inr ⟨mkShipment r, by simp [createShipment, hE, hT, hD, hC]⟩

theorem createShipment_created_eq (s : Store) (r : CreateShipmentReq)
    (hv : validateCreateShipment r = [])
    (h1 : truckCheck s r = none) (h2 : driverCheck s r = none)
    (h3 : clientCheck s r = none) :
    createShipment s r = (CSResult.created (mkShipment r), applyCreate s r) := by
  simp [createShipment, hv, h1, h2, h3]

theorem createShipment_created_inv (s : Store) (r : CreateShipmentReq) (sh : Shipment)
    (h : (createShipment s r).1 = CSResult.created sh) :
    truckCheck s r = none ∧ driverCheck s r = none ∧ clientCheck s r = none ∧
      sh = mkShipment r ∧ (createShipment s r).2 = applyCreate s r := by
  cases hE : (validateCreateShipment r).isEmpty with
  | false => simp [createShipment, hE] at h
  | true =>
    cases hT : truckCheck s r with
    | some e =>
      obtain ⟨m, rfl⟩ := truckCheck_some s r e hT
      simp [createShipment, hE, hT] at h
    | none =>
      cases hD : driverCheck s r with
      | some e =>
        obtain ⟨m, rfl⟩ := driverCheck_some s r e hD
        simp [createShipment, hE, hT, hD] at h
      | none =>
        cases hC : clientCheck s r with
        | some e =>
          obtain ⟨m, rfl⟩ := clientCheck_some s r e hC
          simp [createShipment, hE, hT, hD, hC] at h
        | none =>
          have h4 : mkShipment r = sh := by
            simpa [createShipment, hE, hT, hD, hC] using h
          exact ⟨rfl, rfl, rfl, h4.symm, by simp [createShipment, hE, hT, hD, hC]⟩

theorem populateAll_eq_none (s : Store) (l : List Shipment) (sh : Shipment)
    (hm : sh ∈ l) (hc : findClientQ s.clients sh.clientId = none) :
    populateAll s l = none := by
  induction l with
  | nil => cases hm
  | cons a rest ih =>
    rcases List.mem_cons.mp hm with h2 | h2
    · subst h2
      simp [populateAll, populateOne, hc]
    · simp only [populateAll, ih h2]
      cases populateOne s a <;> simp


theorem populateAll_eq_some (s : Store) (l : List Shipment)
    (h : ∀ sh ∈ l, (findClientQ s.clients sh.clientId).isSome = true) :
    populateAll s l = some (l.map (populateTotal s)) := by
  induction l with
  | nil => rfl
  | cons a rest ih =>
    have ha := h a (List.mem_cons_self _ _)
    obtain ⟨c, hc⟩ := Option.isSome_iff_exists.mp ha
    have htail := ih (fun sh hm => h sh (List.mem_cons_of_mem _ hm))
    simp [populateAll, populateOne, hc, htail, populateTotal]

theorem counterVal_cons (a : String × Int) (l : List (String × Int)) (key : String) :
    counterVal (a :: l) key = if a.1 == key then a.2 else counterVal l key := by
  cases ha : a.1 == key with
  | true =>
    simp only [counterVal]
    rw [find?_cons_true (fun p => p.1 == key) a l ha]
    simp [ha]
  | false =>
    simp only [counterVal]
    rw [find?_cons_false (fun p => p.1 == key) a l ha]
    simp [ha, counterVal]

theorem counterVal_updCounter (cs : List (String × Int)) (key : String) (v : Int)
    (h : (cs.find? (fun p => p.1 == key)).isSome = true) :
    counterVal (updCounter cs key v) key = v := by
  induction cs with
  | nil => simp [List.find?] at h
  | cons a rest ih =>
    cases ha : a.1 == key with
    | true =>
      simp only [updCounter, ha, if_true]
      rw [counterVal_cons]
      simp [ha]
    | false =>
      rw [find?_cons_false (fun p => p.1 == key) a rest ha] at h
      simp only [updCounter, ha, Bool.false_eq_true, if_false]
      rw [counterVal_cons]
      simp only [ha, Bool.false_eq_true, if_false]
      exact ih h

theorem nextSequence_fst (cs : List (String × Int)) (key : String) :
    (nextSequence cs key).1 = counterVal cs key + 1 := by
  unfold nextSequence counterVal
  cases h : cs.find? (fun p => p.1 == key) <;> simp [h]

theorem counterVal_append_single (cs : List (String × Int)) (key : String) (v : Int)
    (h : cs.find? (fun p => p.1 == key) = none) :
    counterVal (cs ++ [(key, v)]) key = v := by
  induction cs with
  | nil => simp [counterVal, List.find?]
  | cons a rest ih =>
    cases ha : a.1 == key with
    | true =>
      rw [find?_cons_true (fun p => p.1 == key) a rest ha] at h
      cases h
    | false =>
      rw [find?_cons_false (fun p => p.1 == key) a rest ha] at h
      rw [List.cons_append, counterVal_cons]
      simp only [ha, Bool.false_eq_true, if_false]
      exact ih h

theorem counterVal_nextSequence (cs : List (String × Int)) (key : String) :
    counterVal (nextSequence cs key).2 key = counterVal cs key + 1 := by
  unfold nextSequence
  cases h : cs.find? (fun p => p.1 == key) with
  | none =>
    simp only
    rw [counterVal_append_single cs key 1 h]
    simp [counterVal, h]
  | some p =>
    simp only
    rw [counterVal_updCounter cs key (p.2 + 1) (by simp [h])]
    simp [counterVal, h]

theorem seqValues_eq (key : String) (n : Nat) :
    ∀ cs, seqValues cs key n =
      (List.range n).map (fun i : Nat => counterVal cs key + (i : Int) + 1) := by
  induction n with
  | zero => intro cs; simp [seqValues]
  | succ n ih =>
    intro cs
    simp only [seqValues]
    rw [nextSequence_fst, ih (nextSequence cs key).2, counterVal_nextSequence,
        List.range_succ_eq_map, List.map_cons, List.map_map]
    congr 1
    · simp
    · refine List.map_congr_left ?_
      intro i _
      simp only [Function.comp]
      push_cast
      ring

theorem seqValues_pairwise (cs : List (String × Int)) (key : String) (n : Nat) :
    List.Pairwise (· < ·) (seqValues cs key n) := by
  rw [seqValues_eq]
  rw [List.pairwise_map]
  refine (List.pairwise_lt_range n).imp ?_
  intro a b hab
  have hab2 : (a : Int) < b := by exact_mod_cast hab
  omega

/-! ### Concrete fixtures used by witnesses and counterexamples -/

/-- A store with no records. -/
def emptyStore : Store :=
  { trucks := [], drivers := [], clients := [], shipments := [] }

/-- A request whose validated fields are all well-formed, referencing
client 1, truck 2, driver 3. -/
def baseReq : CreateShipmentReq :=
  { clientId := some (.vnum 1), shipmentName := some (.vstr "Steel coils"),
    pickupLocation := some (.vstr "Pune"), deliveryLocation := some (.vstr "Delhi"),
    cargoType := some (.vstr "steel"), cargoWeight := some (.vnum 120),
    specialInstructions := none,
    departureDate := some (.vstr "2024-01-01"), arrivalDate := some (.vstr "2024-01-05"),
    status := none, truckId := some (.vnum 2), driverId := some (.vnum 3) }

/-- An available truck with id 2. -/
def baseTruck : Truck := { truckId := 2, availabilityStatus := "Available" }

/-- An available driver with id 3 and no assigned truck. -/
def baseDriver : Driver :=
  { driverId := 3, name := "Asha", licenseNumber := "LIC9",
    availabilityStatus := "Available", assignedTruck := none }

/-- Client 1. -/
def baseClient : Client := { clientId := 1, clientName := "Acme" }

/-- Store holding exactly the three records `baseReq` references. -/
def baseStore : Store :=
  { trucks := [baseTruck], drivers := [baseDriver], clients := [baseClient],
    shipments := [] }

/-- Store whose only truck 2 is not available. -/
def busyTruckStore : Store :=
  { emptyStore with trucks := [{ truckId := 2, availabilityStatus := "Not Available" }] }

/-- Store with truck 2 available but no drivers. -/
def noDriverStore : Store := { emptyStore with trucks := [baseTruck] }

/-- Store with truck 2 available and driver 3 not available. -/
def busyDriverStore : Store :=
  { emptyStore with
    trucks := [baseTruck]
    drivers := [{ baseDriver with availabilityStatus := "Not Available" }] }

/-- Store with truck 2 and driver 3 available and no clients. -/
def noClientStore : Store :=
  { emptyStore with trucks := [baseTruck], drivers := [baseDriver] }

/-! ### Claim theorems -/

/-- C1: for every createShipment request that passes field validation, the
business-rule checks run in source order truck, then driver, then client, and
the first failing check returns immediately with its 400 message, with the
store unchanged and regardless of the state relevant to any later check:
a missing truck yields "Invalid Truck ID. Truck does not exist.", a present
but unavailable truck yields "Truck is not available.", analogously for the
driver, and a missing client yields "Invalid Client ID. Client does not
exist.". -/
theorem createShipment_business_checks_in_order (s : Store) (r : CreateShipmentReq)
    (hv : validateCreateShipment r = []) :
    (jtruthy r.truckId = true → findTruckQ s.trucks r.truckId = none →
      createShipment s r =
        (CSResult.businessErr "Invalid Truck ID. Truck does not exist.", s)) ∧
    (∀ t : Truck, jtruthy r.truckId = true → findTruckQ s.trucks r.truckId = some t →
      t.availabilityStatus ≠ "Available" →
      createShipment s r = (CSResult.businessErr "Truck is not available.", s)) ∧
    (truckCheck s r = none → jtruthy r.driverId = true →
      findDriverQ s.drivers r.driverId = none →
      createShipment s r =
        (CSResult.businessErr "Invalid Driver ID. Driver does not exist.", s)) ∧
    (∀ d : Driver, truckCheck s r = none → jtruthy r.driverId = true →
      findDriverQ s.drivers r.driverId = some d → d.availabilityStatus ≠ "Available" →
      createShipment s r = (CSResult.businessErr "Driver is not available.", s)) ∧
    (truckCheck s r = none → driverCheck s r = none → jtruthy r.clientId = true →
      findClientQ s.clients r.clientId = none →
      createShipment s r =
        (CSResult.businessErr "Invalid Client ID. Client does not exist.", s)) := by
  refine ⟨?_, ?_, ?_, ?_, ?_⟩
  · intro h1 h2
    have hT : truckCheck s r =
        some (CSResult.businessErr "Invalid Truck ID. Truck does not exist.") := by
      simp [truckCheck, h1, h2]
    simp [createShipment, hv, hT]
  · intro t h1 h2 h3
    have hb : (t.availabilityStatus != "Available") = true := by
      simpa [bne_iff_ne] using h3
    have hT : truckCheck s r = some (CSResult.businessErr "Truck is not available.") := by
      simp [truckCheck, h1, h2, hb]
    simp [createShipment, hv, hT]
  · intro hT h1 h2
    have hD : driverCheck s r =
        some (CSResult.businessErr "Invalid Driver ID. Driver does not exist.") := by
      simp [driverCheck, h1, h2]
    simp [createShipment, hv, hT, hD]
  · intro d hT h1 h2 h3
    have hb : (d.availabilityStatus != "Available") = true := by
      simpa [bne_iff_ne] using h3
    have hD : driverCheck s r = some (CSResult.businessErr "Driver is not available.") := by
      simp [driverCheck, h1, h2, hb]
    simp [createShipment, hv, hT, hD]
  · intro hT hD h1 h2
    have hC : clientCheck s r =
        some (CSResult.businessErr "Invalid Client ID. Client does not exist.") := by
      simp [clientCheck, h1, h2]
    simp [createShipment, hv, hT, hD, hC]

/-- C1 witness: the five rejection shapes at concrete stores. -/
theorem createShipment_business_checks_in_order_witness :
    createShipment emptyStore baseReq =
      (CSResult.businessErr "Invalid Truck ID. Truck does not exist.", emptyStore) ∧
    createShipment busyTruckStore baseReq =
      (CSResult.businessErr "Truck is not available.", busyTruckStore) ∧
    createShipment noDriverStore baseReq =
      (CSResult.businessErr "Invalid Driver ID. Driver does not exist.", noDriverStore) ∧
    createShipment busyDriverStore baseReq =
      (CSResult.businessErr "Driver is not available.", busyDriverStore) ∧
    createShipment noClientStore baseReq =
      (CSResult.businessErr "Invalid Client ID. Client does not exist.", noClientStore) :=
  ⟨(createShipment_business_checks_in_order emptyStore baseReq rfl).1 rfl rfl,
   (createShipment_business_checks_in_order busyTruckStore baseReq rfl).2.1
     { truckId := 2, availabilityStatus := "Not Available" } rfl rfl (by decide),
   (createShipment_business_checks_in_order noDriverStore baseReq rfl).2.2.1 rfl rfl rfl,
   (createShipment_business_checks_in_order busyDriverStore baseReq rfl).2.2.2.1
     { baseDriver with availabilityStatus := "Not Available" } rfl rfl (by decide) (by decide),
   (createShipment_business_checks_in_order noClientStore baseReq rfl).2.2.2.2
     rfl rfl rfl rfl⟩

/-- C2: a createShipment request that passes validation and references an
existing Available truck and an existing Available driver (with the client
check passing) yields the 201 `created` response, and afterwards the
referenced truck is "Not Available", the referenced driver is
"Not Available", and the driver's `assignedTruck` equals the request's
truckId (cast to its numeric value). -/
theorem createShipment_success_flips_truck_and_driver (s : Store) (r : CreateShipmentReq)
    (t : Truck) (d : Driver)
    (hv : validateCreateShipment r = [])
    (ht1 : jtruthy r.truckId = true)
    (ht2 : findTruckQ s.trucks r.truckId = some t)
    (ht3 : t.availabilityStatus = "Available")
    (hd1 : jtruthy r.driverId = true)
    (hd2 : findDriverQ s.drivers r.driverId = some d)
    (hd3 : d.availabilityStatus = "Available")
    (hc : clientCheck s r = none) :
    (createShipment s r).1 = CSResult.created (mkShipment r) ∧
    (createShipment s r).2.trucks.find? (fun x => x.truckId == jvalToIntD r.truckId) =
      some { t with availabilityStatus := "Not Available" } ∧
    (createShipment s r).2.drivers.find? (fun x => x.driverId == jvalToIntD r.driverId) =
      some { d with availabilityStatus := "Not Available",
                    assignedTruck := r.truckId.map jvalToInt } := by
  have hbt : (t.availabilityStatus != "Available") = false := by simp [ht3]
  have hbd : (d.availabilityStatus != "Available") = false := by simp [hd3]
  have hT : truckCheck s r = none := by simp [truckCheck, ht1, ht2, hbt]
  have hD : driverCheck s r = none := by simp [driverCheck, hd1, hd2, hbd]
  have he := createShipment_created_eq s r hv hT hD hc
  have hs1 : (createShipment s r).1 = CSResult.created (mkShipment r) := by rw [he]
  have hs2 : (createShipment s r).2 = applyCreate s r := by rw [he]
  refine ⟨hs1, ?_, ?_⟩
  · rw [hs2, applyCreate_trucks, if_pos ht1]
    cases hrT : r.truckId with
    | none => rw [hrT] at ht1; simp [jtruthy] at ht1
    | some tv =>
      have ht2b : s.trucks.find? (fun x => x.truckId == jvalToInt tv) = some t := by
        simpa [findTruckQ, hrT] using ht2
      simp only [jvalToIntD]
      exact find_updateTruckAvail s.trucks (jvalToInt tv) t ht2b
  · rw [hs2, applyCreate_drivers, if_pos hd1]
    cases hrD : r.driverId with
    | none => rw [hrD] at hd1; simp [jtruthy] at hd1
    | some dv =>
      have hd2b : s.drivers.find? (fun x => x.driverId == jvalToInt dv) = some d := by
        simpa [findDriverQ, hrD] using hd2
      simp only [jvalToIntD]
      exact find_updateDriverAssign s.drivers (jvalToInt dv) (r.truckId.map jvalToInt) d hd2b

/-- C2 witness at the base fixtures. -/
theorem createShipment_success_flips_truck_and_driver_witness :
    (createShipment baseStore baseReq).1 = CSResult.created (mkShipment baseReq) ∧
    (createShipment baseStore baseReq).2.trucks.find?
        (fun x => x.truckId == jvalToIntD baseReq.truckId) =
      some { baseTruck with availabilityStatus := "Not Available" } ∧
    (createShipment baseStore baseReq).2.drivers.find?
        (fun x => x.driverId == jvalToIntD baseReq.driverId) =
      some { baseDriver with availabilityStatus := "Not Available",
                             assignedTruck := baseReq.truckId.map jvalToInt } :=
  createShipment_success_flips_truck_and_driver baseStore baseReq baseTruck baseDriver
    rfl rfl rfl rfl rfl rfl rfl rfl

/-- C3: whenever createShipment answers with a business-rule rejection
(any `businessErr`), the store is returned unchanged: no shipment is
persisted and no truck or driver record is modified. -/
theorem createShipment_businessErr_leaves_store_unchanged (s : Store)
    (r : CreateShipmentReq) (m : String)
    (h : (createShipment s r).1 = CSResult.businessErr m) :
    (createShipment s r).2 = s := by
  rcases createShipment_store_cases s r with h2 | ⟨sh, h2⟩
  · exact h2
  · rw [h2] at h
    exact CSResult.noConfusion h

/-- C3 witness: the busy-truck rejection leaves the store untouched. -/
theorem createShipment_businessErr_leaves_store_unchanged_witness :
    (createShipment busyTruckStore baseReq).2 = busyTruckStore :=
  createShipment_businessErr_leaves_store_unchanged busyTruckStore baseReq
    "Truck is not available." rfl

/-- Request used by the C4 counterexample: every validated field is
well-formed but the supplied status lies outside the
pending/delivered/cancelled enum. -/
def bogusStatusReq : CreateShipmentReq := { baseReq with status := some (.vstr "bogus") }

/-- C4 counterexample: a createShipment request whose only violation is a
supplied status value outside the enum is NOT rejected with the aggregate
400 validation response — field validation passes, the handler proceeds to
the business checks, answers 201 and persists the record (with the
out-of-enum status), because `createShipment` has no validator chain for
`status`. -/
theorem createShipment_invalid_status_not_rejected :
    validateCreateShipment bogusStatusReq = [] ∧
    (createShipment baseStore bogusStatusReq).1 =
      CSResult.created (mkShipment bogusStatusReq) ∧
    (mkShipment bogusStatusReq).status = JVal.vstr "bogus" ∧
    (createShipment baseStore bogusStatusReq).2.shipments = [mkShipment bogusStatusReq] := by
  refine ⟨rfl, by decide, rfl, by decide⟩

/-- C4 (amended): whenever any of the ten validated field chains fails
(clientId, shipmentName, pickupLocation, deliveryLocation, cargoType,
cargoWeight, departureDate, arrivalDate, truckId, driverId), createShipment
answers the 400 validation response carrying the aggregated error list and
the store is unchanged for every store (so no business check result and no
write can influence it); each failing field contributes its message to the
list. A supplied `status` (or `specialInstructions`) value is not field
validated. -/
theorem createShipment_validation_aggregates (s : Store) (r : CreateShipmentReq)
    (h : validateCreateShipment r ≠ []) :
    createShipment s r = (CSResult.validationErr (validateCreateShipment r), s) ∧
    (isNumericV r.clientId = false →
      "Client ID must be an integer." ∈ validateCreateShipment r) ∧
    (isStringV r.shipmentName = false →
      "Shipment Name is required." ∈ validateCreateShipment r) ∧
    (isNonEmptyStringV r.pickupLocation = false →
      "Pickup location is required." ∈ validateCreateShipment r) ∧
    (isNonEmptyStringV r.deliveryLocation = false →
      "Delivery location is required." ∈ validateCreateShipment r) ∧
    (isNonEmptyStringV r.cargoType = false →
      "Cargo type is required." ∈ validateCreateShipment r) ∧
    (isPositiveNumV r.cargoWeight = false →
      "Cargo weight must be a positive number." ∈ validateCreateShipment r) ∧
    (isISO8601V r.departureDate = false →
      "Departure date must be a valid date." ∈ validateCreateShipment r) ∧
    (isISO8601V r.arrivalDate = false →
      "Arrival date must be a valid date." ∈ validateCreateShipment r) ∧
    (isOptionalNumericV r.truckId = false →
      "Truck ID must be a valid MongoDB ObjectId." ∈ validateCreateShipment r) ∧
    (isOptionalNumericV r.driverId = false →
      "Driver ID must be a valid MongoDB ObjectId." ∈ validateCreateShipment r) := by
  have hE : (validateCreateShipment r).isEmpty = false := by
    cases hq : validateCreateShipment r with
    | nil => exact absurd hq h
    | cons a l => simp
  refine ⟨by simp [createShipment, hE], ?_, ?_, ?_, ?_, ?_, ?_, ?_, ?_, ?_, ?_⟩ <;>
    intro hf <;> simp [validateCreateShipment, hf]

/-- C4 witness: a request missing its shipment name with a negative cargo
weight is rejected with both messages aggregated, store untouched. -/
theorem createShipment_validation_aggregates_witness :
    createShipment baseStore
        { baseReq with shipmentName := none, cargoWeight := some (.vnum (-5)) } =
      (CSResult.validationErr (validateCreateShipment
        { baseReq with shipmentName := none, cargoWeight := some (.vnum (-5)) }), baseStore) ∧
    "Shipment Name is required." ∈ validateCreateShipment
        { baseReq with shipmentName := none, cargoWeight := some (.vnum (-5)) } ∧
    "Cargo weight must be a positive number." ∈ validateCreateShipment
        { baseReq with shipmentName := none, cargoWeight := some (.vnum (-5)) } :=
  ⟨(createShipment_validation_aggregates baseStore
      { baseReq with shipmentName := none, cargoWeight := some (.vnum (-5)) }
      (by decide)).1,
   (createShipment_validation_aggregates baseStore
      { baseReq with shipmentName := none, cargoWeight := some (.vnum (-5)) }
      (by decide)).2.2.1 (by decide),
   (createShipment_validation_aggregates baseStore
      { baseReq with shipmentName := none, cargoWeight := some (.vnum (-5)) }
      (by decide)).2.2.2.2.2.2.1 (by decide)⟩

/-- C5: with no shipment of id 5 and no driver of id 99 in the store,
updateShipment, getDriverById and updateDriverById each answer the 500
`serverErr` — not the 404 the spec prescribes — because each handler
dereferences the lookup result (`updatedShipment.truckId`,
`driver.assignedTruck`) before its null check, so the missing target throws
and the in-code 404 branch is unreachable. -/
theorem missing_target_yields_serverErr :
    (updateShipment baseStore 5 emptyShipmentUpdate).1 = ShipmentUpdateResult.serverErr ∧
    getDriverById baseStore 99 = DriverGetResult.serverErr ∧
    (updateDriverById baseStore 99 emptyDriverUpdate).1 = DriverUpdateResult.serverErr :=
  ⟨rfl, rfl, rfl⟩

/-- C6: the Sequence Generator returns, for a key, 1 on first use, then on
every call the previous value plus 1 (both as the returned value and as the
persisted counter), so successive values are strictly increasing and never
reused (pairwise ordered); from a fresh store the first n values are
1, 2, …, n; and the Bill pre-save hook assigns `billId` from this sequence
on first save of a new record. -/
theorem sequence_generator_strictly_increasing :
    (∀ key : String, (nextSequence [] key).1 = 1) ∧
    (∀ (cs : List (String × Int)) (key : String),
      (nextSequence cs key).1 = counterVal cs key + 1) ∧
    (∀ (cs : List (String × Int)) (key : String),
      counterVal (nextSequence cs key).2 key = counterVal cs key + 1) ∧
    (∀ (cs : List (String × Int)) (key : String) (n : Nat),
      List.Pairwise (· < ·) (seqValues cs key n)) ∧
    (∀ (key : String) (n : Nat),
      seqValues [] key n = (List.range n).map (fun i : Nat => (i : Int) + 1)) ∧
    (∀ (b : Bill) (cs : List (String × Int)),
      (billPreSave true b cs).1.billId = (nextSequence cs "billId").1) := by
  refine ⟨?_, nextSequence_fst, counterVal_nextSequence, seqValues_pairwise, ?_, ?_⟩
  · intro key
    rw [nextSequence_fst]
    simp [counterVal, List.find?]
  · intro key n
    rw [seqValues_eq]
    simp [counterVal, List.find?]
  · intro b cs
    simp [billPreSave]

/-- Request with a driver but no truck. -/
def noTruckReq : CreateShipmentReq := { baseReq with truckId := none }

/-- C7: on any successful createShipment whose request has no truckId, no
driver in the resulting store holds an assigned-truck reference it did not
already hold: every driver either has `assignedTruck = none` (the updated
referenced driver — the `$set` writes the absent truckId) or is an untouched
record of the original store. -/
theorem createShipment_no_truck_keeps_assignedTruck_clear (s : Store)
    (r : CreateShipmentReq) (sh : Shipment)
    (ht : r.truckId = none)
    (h : (createShipment s r).1 = CSResult.created sh) :
    ∀ d ∈ (createShipment s r).2.drivers, d.assignedTruck = none ∨ d ∈ s.drivers := by
  obtain ⟨hT, hD, hC, hsh, hs2⟩ := createShipment_created_inv s r sh h
  intro d hd
  rw [hs2, applyCreate_drivers] at hd
  by_cases hdr : jtruthy r.driverId = true
  · rw [if_pos hdr] at hd
    have hmem := mem_updateDriverAssign s.drivers (jvalToIntD r.driverId)
      (r.truckId.map jvalToInt) d hd
    rw [ht] at hmem
    simpa using hmem
  · rw [if_neg hdr] at hd
    exact Or.inr hd

/-- The driver record as it stands after the C7 witness request. -/
def assignedNoneDriver : Driver :=
  { driverId := 3, name := "Asha", licenseNumber := "LIC9",
    availabilityStatus := "Not Available", assignedTruck := none }

/-- C7 witness: after creating a driver-only shipment, the referenced driver
(now "Not Available") carries no assigned truck. -/
theorem createShipment_no_truck_keeps_assignedTruck_clear_witness :
    assignedNoneDriver.assignedTruck = none ∨ assignedNoneDriver ∈ baseStore.drivers :=
  createShipment_no_truck_keeps_assignedTruck_clear baseStore noTruckReq
    (mkShipment noTruckReq) rfl (by decide) assignedNoneDriver (by decide)

/-- Store with one shipment whose client 1 is missing. -/
def orphanShipmentStore : Store :=
  { emptyStore with shipments := [mkShipment baseReq] }

/-- Store with one shipment whose client, truck and driver all resolve. -/
def populatedStore : Store := { baseStore with shipments := [mkShipment baseReq] }

/-- C8: if any stored shipment's clientId matches no client record,
getAllShipments answers the 500 `serverErr` (the unguarded
`client.clientName` dereference throws); when every shipment's client
resolves, it answers 200 with each shipment merged with its resolved truck,
driver, and the client's name. -/
theorem getAllShipments_client_dereference (s : Store) :
    (∀ sh ∈ s.shipments, findClientQ s.clients sh.clientId = none →
      getAllShipments s = GSResult.serverErr) ∧
    ((∀ sh ∈ s.shipments, (findClientQ s.clients sh.clientId).isSome = true) →
      getAllShipments s = GSResult.ok (s.shipments.map (populateTotal s))) := by
  constructor
  · intro sh hm hc
    unfold getAllShipments
    rw [populateAll_eq_none s s.shipments sh hm hc]
  · intro h
    unfold getAllShipments
    rw [populateAll_eq_some s s.shipments h]

/-- C8 witness: a store whose only shipment has no matching client yields
500; the fully resolvable store yields the populated 200 list. -/
theorem getAllShipments_client_dereference_witness :
    getAllShipments orphanShipmentStore = GSResult.serverErr ∧
    getAllShipments populatedStore =
      GSResult.ok (populatedStore.shipments.map (populateTotal populatedStore)) :=
  ⟨(getAllShipments_client_dereference orphanShipmentStore).1
      (mkShipment baseReq) (by decide) (by decide),
   (getAllShipments_client_dereference populatedStore).2 (by decide)⟩

/-- Request with neither truckId nor driverId supplied. -/
def noRefsReq : CreateShipmentReq := { baseReq with truckId := none, driverId := none }

/-- C9: a valid createShipment request with neither truckId nor driverId,
when it succeeds, creates its shipment with status equal to the supplied
status, or "pending" when none was supplied, and leaves every truck and
driver record unchanged. -/
theorem createShipment_no_refs_default_status_and_frame (s : Store)
    (r : CreateShipmentReq) (sh : Shipment)
    (_hv : validateCreateShipment r = [])
    (ht : r.truckId = none) (hd : r.driverId = none)
    (h : (createShipment s r).1 = CSResult.created sh) :
    sh.status = r.status.getD (JVal.vstr "pending") ∧
    (createShipment s r).2.trucks = s.trucks ∧
    (createShipment s r).2.drivers = s.drivers := by
  obtain ⟨hT, hD, hC, hsh, hs2⟩ := createShipment_created_inv s r sh h
  subst hsh
  refine ⟨rfl, ?_, ?_⟩
  · rw [hs2, applyCreate_trucks, ht]
    simp [jtruthy]
  · rw [hs2, applyCreate_drivers, hd]
    simp [jtruthy]

/-- C9 witness: the reference-free request on the base store. -/
theorem createShipment_no_refs_default_status_and_frame_witness :
    (mkShipment noRefsReq).status = noRefsReq.status.getD (JVal.vstr "pending") ∧
    (createShipment baseStore noRefsReq).2.trucks = baseStore.trucks ∧
    (createShipment baseStore noRefsReq).2.drivers = baseStore.drivers :=
  createShipment_no_refs_default_status_and_frame baseStore noRefsReq
    (mkShipment noRefsReq) rfl rfl rfl (by decide)

/-- Request whose clientId, truckId and driverId are all the number 0. -/
def zeroIdsReq : CreateShipmentReq :=
  { baseReq with
    clientId := some (.vnum 0)
    truckId := some (.vnum 0)
    driverId := some (.vnum 0) }

/-- C10: the business checks test presence by JavaScript truthiness, so the
number 0 — which passes the numeric field validators — skips them: with
clientId = 0 the client-existence check is skipped (and, when the other
checks pass, the shipment is created against any store, clients present or
not); with truckId = 0 no truck check runs and the trucks are never
modified; with driverId = 0 no driver check runs and the drivers are never
modified. -/
theorem createShipment_zero_ids_skip_checks (s : Store) (r : CreateShipmentReq)
    (hv : validateCreateShipment r = []) :
    (r.clientId = some (JVal.vnum 0) → clientCheck s r = none) ∧
    (r.truckId = some (JVal.vnum 0) →
      truckCheck s r = none ∧ (createShipment s r).2.trucks = s.trucks) ∧
    (r.driverId = some (JVal.vnum 0) →
      driverCheck s r = none ∧ (createShipment s r).2.drivers = s.drivers) ∧
    (r.clientId = some (JVal.vnum 0) → truckCheck s r = none → driverCheck s r = none →
      (createShipment s r).1 = CSResult.created (mkShipment r)) := by
  refine ⟨?_, ?_, ?_, ?_⟩
  · intro h0
    simp [clientCheck, h0, jtruthy]
  · intro h0
    refine ⟨by simp [truckCheck, h0, jtruthy], ?_⟩
    rcases createShipment_store_cases s r with h2 | ⟨sh, h2⟩
    · rw [h2]
    · obtain ⟨hT, hD, hC, hsh, hs2⟩ := createShipment_created_inv s r sh h2
      rw [hs2, applyCreate_trucks, h0]
      simp [jtruthy]
  · intro h0
    refine ⟨by simp [driverCheck, h0, jtruthy], ?_⟩
    rcases createShipment_store_cases s r with h2 | ⟨sh, h2⟩
    · rw [h2]
    · obtain ⟨hT, hD, hC, hsh, hs2⟩ := createShipment_created_inv s r sh h2
      rw [hs2, applyCreate_drivers, h0]
      simp [jtruthy]
  · intro h0 hT hD
    have hC : clientCheck s r = none := by simp [clientCheck, h0, jtruthy]
    rw [createShipment_created_eq s r hv hT hD hC]

/-- C10 witness: with all three ids 0, creation succeeds against the empty
store — no client, truck or driver exists, yet no check fires and nothing
is updated. -/
theorem createShipment_zero_ids_skip_checks_witness :
    clientCheck emptyStore zeroIdsReq = none ∧
    (truckCheck emptyStore zeroIdsReq = none ∧
      (createShipment emptyStore zeroIdsReq).2.trucks = emptyStore.trucks) ∧
    (driverCheck emptyStore zeroIdsReq = none ∧
      (createShipment emptyStore zeroIdsReq).2.drivers = emptyStore.drivers) ∧
    (createShipment emptyStore zeroIdsReq).1 = CSResult.created (mkShipment zeroIdsReq) :=
  ⟨(createShipment_zero_ids_skip_checks emptyStore zeroIdsReq (by decide)).1 (by decide),
   (createShipment_zero_ids_skip_checks emptyStore zeroIdsReq (by decide)).2.1 (by decide),
   (createShipment_zero_ids_skip_checks emptyStore zeroIdsReq (by decide)).2.2.1 (by decide),
   (createShipment_zero_ids_skip_checks emptyStore zeroIdsReq (by decide)).2.2.2
     (by decide) (by decide) (by decide)⟩

end Transport
